import Mathlib

/-!
Shallow embedding of ryodaso/anime-game-chart-maker:
  - `src/app/api/search/anime/route.ts` (AniList search proxy),
  - `src/app/api/search/game/route.ts` (IGDB search proxy with Twitch
    OAuth client-credentials token cache),
  - `src/app/page.tsx` (chart editor UI state and its operations).
Network effects are modelled by passing the upstream interaction outcome
as an explicit argument and recording which calls the handler performed.
-/

set_option autoImplicit false

/-- Characters stripped by JavaScript `String.prototype.trim` (ECMAScript
WhiteSpace and LineTerminator; rarer Unicode `Zs` code points are omitted,
no query in scope contains them). -/
def jsWhitespace (c : Char) : Bool :=
  c == ' ' || c == '\t' || c == '\n' || c == '\r' || c == '\x0b' || c == '\x0c' ||
    c == '\u00A0' || c == '\uFEFF' || c == '\u2028' || c == '\u2029'

/-- JavaScript `s.trim()`: drop leading and trailing whitespace. -/
def jsTrim (s : String) : String :=
  ⟨((s.data.dropWhile jsWhitespace).reverse.dropWhile jsWhitespace).reverse⟩

/-- JavaScript `a || b` on a possibly-undefined string `a`: `undefined`
and the empty string are falsy, any other string is returned as is. -/
def jsOrStr (a : Option String) (b : String) : String :=
  match a with
  | some s => if s = "" then b else s
  | none => b

/-- JavaScript `a || b` on possibly-undefined numbers: `undefined` and
`0` are falsy. -/
def jsOrNum (a : Option Int) (b : Option Int) : Option Int :=
  match a with
  | some n => if n = 0 then b else some n
  | none => b

/-- `title { romaji english native }` object of an AniList media item. -/
structure AniTitle where
  romaji : Option String := none
  english : Option String := none
  native : Option String := none
deriving DecidableEq

/-- `coverImage { extraLarge large }` object of an AniList media item. -/
structure AniCover where
  extraLarge : Option String := none
  large : Option String := none
deriving DecidableEq

/-- `startDate { year }` object of an AniList media item. -/
structure AniStartDate where
  year : Option Int := none
deriving DecidableEq

/-- One AniList media item as typed by `AniListResponse` in
`src/app/api/search/anime/route.ts`. -/
structure AniMedia where
  id : Int
  title : Option AniTitle := none
  coverImage : Option AniCover := none
  seasonYear : Option Int := none
  startDate : Option AniStartDate := none
deriving DecidableEq

/-- `Page { media }` of the AniList response. -/
structure AniPage where
  media : Option (List AniMedia) := none
deriving DecidableEq

/-- `data { Page }` of the AniList response. -/
structure AniData where
  Page : Option AniPage := none
deriving DecidableEq

/-- The `AniListResponse` shape of the anime route. -/
structure AniListResponse where
  data : Option AniData := none
deriving DecidableEq

/-- Normalized search result `{ id, title, year?, imageUrl }` produced by
both proxies and consumed by the UI. -/
structure SearchResult where
  id : String
  title : String
  year : Option Int := none
  imageUrl : String
deriving DecidableEq

/-- The `.map((m) => ...)` body of the anime route: select the title by
`english || romaji || native || "Untitled"`, the image by
`extraLarge || large || ""`, the year by `seasonYear || startDate?.year`. -/
def mapMedia (m : AniMedia) : SearchResult :=
  { id := toString m.id
  , title := jsOrStr (m.title.bind AniTitle.english)
      (jsOrStr (m.title.bind AniTitle.romaji)
        (jsOrStr (m.title.bind AniTitle.native) "Untitled"))
  , year := jsOrNum m.seasonYear (m.startDate.bind AniStartDate.year)
  , imageUrl := jsOrStr (m.coverImage.bind AniCover.extraLarge)
      (jsOrStr (m.coverImage.bind AniCover.large) "") }

/-- `media.map(mapMedia).filter((r) => r.imageUrl)`: map every upstream
item and keep only those with a non-empty (truthy) image URL. -/
def animeResults (media : List AniMedia) : List SearchResult :=
  (media.map mapMedia).filter (fun r => r.imageUrl != "")

/-- Outcome of the single upstream `fetch` the anime route may perform:
`ok` is `resp.ok`, `text` the error body read when not ok, `json` the
parsed body read when ok. -/
structure AnimeUpstream where
  ok : Bool
  text : String := ""
  json : AniListResponse := {}
deriving DecidableEq

/-- Normalized response of a route handler: either a JSON `{ results }`
payload or an error response with a status code and raw text body. -/
inductive RouteOutput where
  | results (rs : List SearchResult)
  | error (status : Nat) (body : String)
deriving DecidableEq

/-- What one anime `GET` call produced, and whether it called upstream. -/
structure AnimeCallResult where
  output : RouteOutput
  upstreamCalled : Bool
deriving DecidableEq

/-- `GET` of `src/app/api/search/anime/route.ts`. `qParam` is
`searchParams.get("q")` (`none` when absent). Empty trimmed query returns
`{ results: [] }` with no upstream call; a non-ok upstream becomes a 500
carrying `text || "AniList search failed"`; otherwise
`json.data?.Page?.media` (defaulting to `[]`) is mapped and filtered. -/
def animeGET (qParam : Option String) (up : AnimeUpstream) : AnimeCallResult :=
  let q := jsTrim (qParam.getD "")
  if q = "" then
    { output := .results [], upstreamCalled := false }
  else if up.ok = false then
    { output := .error 500 (if up.text = "" then "AniList search failed" else up.text)
    , upstreamCalled := true }
  else
    { output := .results (animeResults (((up.json.data.bind AniData.Page).bind AniPage.media).getD []))
    , upstreamCalled := true }

/-- The module-level `cachedToken` cell of the game route:
`{ token, expiresAt }` with `expiresAt` in epoch milliseconds. -/
structure CachedToken where
  token : String
  expiresAt : Int
deriving DecidableEq

/-- Outcome of the Twitch `oauth2/token` fetch, were it performed:
`ok` is `resp.ok`, `text` the error body read when not ok,
`accessToken`/`expiresIn` the parsed JSON fields read when ok. -/
structure TokenFetchResult where
  ok : Bool
  text : String := ""
  accessToken : String := ""
  expiresIn : Int := 0
deriving DecidableEq

/-- Result of `getTwitchAppToken`: the returned token, or the message of
the `Error` it throws. -/
inductive TokenResult where
  | ok (token : String)
  | thrown (msg : String)
deriving DecidableEq

/-- What `getTwitchAppToken` produced: a token or a thrown error message,
the token-cache cell after the call, and whether a token fetch was made. -/
structure TokenOutcome where
  result : TokenResult
  cacheAfter : Option CachedToken
  fetched : Bool
deriving DecidableEq

/-- The fetch-and-cache tail of `getTwitchAppToken`: a non-ok exchange
throws `text || "Failed to get Twitch token"` (leaving the cache as it
was); a successful one stores
`{ token: access_token, expiresAt: now + expires_in * 1000 }`. -/
def twitchTokenFetch (cache : Option CachedToken) (now : Int) (tf : TokenFetchResult) :
    TokenOutcome :=
  if tf.ok = false then
    { result := .thrown (if tf.text = "" then "Failed to get Twitch token" else tf.text)
    , cacheAfter := cache, fetched := true }
  else
    { result := .ok tf.accessToken
    , cacheAfter := some { token := tf.accessToken, expiresAt := now + tf.expiresIn * 1000 }
    , fetched := true }

/-- `getTwitchAppToken` of `src/app/api/search/game/route.ts`. The env
credentials are `Option String` (`none` = unset; JavaScript also treats
an empty string as missing). The cached token is reused when
`cachedToken.expiresAt - 60_000 > now`; otherwise the exchange runs. -/
def getTwitchAppToken (clientId clientSecret : Option String)
    (cache : Option CachedToken) (now : Int) (tf : TokenFetchResult) : TokenOutcome :=
  if clientId.getD "" = "" ∨ clientSecret.getD "" = "" then
    { result := .thrown "Missing TWITCH_CLIENT_ID or TWITCH_CLIENT_SECRET in .env.local"
    , cacheAfter := cache, fetched := false }
  else
    match cache with
    | some c =>
      if c.expiresAt - 60000 > now then
        { result := .ok c.token, cacheAfter := some c, fetched := false }
      else
        twitchTokenFetch cache now tf
    | none => twitchTokenFetch cache now tf

/-- `q.replace(/"/g, "")`: remove every double-quote character. -/
def stripQuotes (q : String) : String :=
  ⟨q.data.filter (fun c => c != '"')⟩

/-- The Apicalypse body the game route sends to `/v4/games`. The source
builds a template literal and applies `.trim()` to it; this is the
trimmed string (interior newlines and indentation retained). -/
def gameBody (q : String) : String :=
  "search \"" ++ stripQuotes q ++
    "\";\n    fields name, first_release_date, cover.image_id;\n    where version_parent = null;\n    limit 24;"

/-- One conjunct of an Apicalypse `where` clause. The game route uses
only `version_parent = null`; `parent_game = null` is the filter IGDB
documents for excluding DLC/expansion entries, and is listed here so the
absence of any DLC exclusion in the built request can be stated. -/
inductive WhereCond where
  | versionParentIsNull
  | parentGameIsNull
deriving DecidableEq

/-- Structured form of the Apicalypse request the game route builds. -/
structure ApicalypseRequest where
  search : String
  fields : List String
  whereClause : List WhereCond
  limit : Nat
deriving DecidableEq

/-- Render one `where` conjunct in Apicalypse syntax. -/
def renderCond : WhereCond → String
  | .versionParentIsNull => "version_parent = null"
  | .parentGameIsNull => "parent_game = null"

/-- Render a structured request in the exact layout of the route's
trimmed template literal. -/
def renderApicalypse (r : ApicalypseRequest) : String :=
  "search \"" ++ r.search ++ "\";\n    fields " ++ String.intercalate ", " r.fields ++
    ";\n    where " ++ String.intercalate " & " (r.whereClause.map renderCond) ++
    ";\n    limit " ++ toString r.limit ++ ";"

/-- The request the game route builds for a (trimmed, non-empty) query:
quote-stripped search text, three fields, the single condition
`version_parent = null`, limit 24. -/
def builtGameRequest (q : String) : ApicalypseRequest :=
  { search := stripQuotes q
  , fields := ["name", "first_release_date", "cover.image_id"]
  , whereClause := [.versionParentIsNull]
  , limit := 24 }

/-- An entry of the upstream IGDB games catalog, restricted to the two
relationship fields that classify it: `version_parent` (set on
version-variant entries) and `parent_game` (set on DLC/expansion
entries). Modelled from IGDB's documented data model, which the spec's
"non-DLC/non-version-variant" wording refers to. -/
structure CatalogEntry where
  versionParent : Option Int := none
  parentGame : Option Int := none
deriving DecidableEq

/-- A catalog entry is a DLC/expansion entry when `parent_game` is set. -/
def isDLC (g : CatalogEntry) : Bool :=
  g.parentGame.isSome

/-- A catalog entry is a version variant when `version_parent` is set. -/
def isVersionVariant (g : CatalogEntry) : Bool :=
  g.versionParent.isSome

/-- Evaluate one `where` conjunct on a catalog entry. -/
def evalCond : WhereCond → CatalogEntry → Bool
  | .versionParentIsNull, g => g.versionParent.isNone
  | .parentGameIsNull, g => g.parentGame.isNone

/-- A catalog entry is eligible for the response of a request iff it
satisfies every conjunct of the request's `where` clause. -/
def passesWhere (r : ApicalypseRequest) (g : CatalogEntry) : Bool :=
  r.whereClause.all (fun c => evalCond c g)

/-- `cover { image_id }` object of an IGDB response item. -/
structure IGDBCover where
  image_id : Option String := none
deriving DecidableEq

/-- One IGDB response item as typed by `IGDBGame` in the game route. -/
structure IGDBGame where
  id : Int
  name : String
  first_release_date : Option Int := none
  cover : Option IGDBCover := none
deriving DecidableEq

/-- Proleptic-Gregorian year of a day count relative to 1970-01-01
(Howard Hinnant's civil-from-days algorithm, year component only). All
interior divisions act on non-negative operands, so Lean's truncating
`Int` division matches the reference formulation. -/
def civilYearFromDays (z0 : Int) : Int :=
  let z := z0 + 719468
  let era : Int := (if 0 ≤ z then z else z - 146096) / 146097
  let doe : Int := z - era * 146097
  let yoe : Int := (doe - doe / 1460 + doe / 36524 - doe / 146096) / 365
  let y : Int := yoe + era * 400
  let doy : Int := doe - (365 * yoe + yoe / 4 - yoe / 100)
  let mp : Int := (5 * doy + 2) / 153
  let m : Int := mp + (if mp < 10 then 3 else -9)
  y + (if m ≤ 2 then 1 else 0)

/-- `new Date(ms).getUTCFullYear()`: the UTC calendar year of an epoch
millisecond timestamp (days are obtained by flooring division). -/
def getUTCFullYearOfMs (ms : Int) : Int :=
  civilYearFromDays (ms.fdiv 86400000)

/-- The `.map((g) => ...)` body of the game route: year from
`first_release_date` (a falsy `0` yields no year), image URL from the
IGDB cover pattern when `cover?.image_id` is truthy, else `""`. -/
def mapGame (g : IGDBGame) : SearchResult :=
  { id := toString g.id
  , title := g.name
  , year :=
      match g.first_release_date with
      | some ts => if ts = 0 then none else some (getUTCFullYearOfMs (ts * 1000))
      | none => none
  , imageUrl :=
      match g.cover.bind IGDBCover.image_id with
      | some s =>
        if s = "" then ""
        else "https://images.igdb.com/igdb/image/upload/t_cover_big/" ++ s ++ ".jpg"
      | none => "" }

/-- `games.map(mapGame).filter((r) => r.imageUrl)`. -/
def gameResults (games : List IGDBGame) : List SearchResult :=
  (games.map mapGame).filter (fun r => r.imageUrl != "")

/-- Outcome of the IGDB `fetch` the game route may perform. -/
structure GameUpstream where
  ok : Bool
  text : String := ""
  games : List IGDBGame := []
deriving DecidableEq

/-- How a game `GET` call terminates: a normal response, or an unhandled
throw escaping the handler (missing credentials / failed exchange). -/
inductive GameRouteOutcome where
  | response (out : RouteOutput)
  | thrown (msg : String)
deriving DecidableEq

/-- What one game `GET` call produced: its termination, the token-cache
cell afterwards, whether a token fetch was made, and the Apicalypse body
sent to IGDB (`none` when no IGDB call happened). -/
structure GameCallResult where
  outcome : GameRouteOutcome
  cacheAfter : Option CachedToken
  tokenFetched : Bool
  igdbBody : Option String
deriving DecidableEq

/-- `GET` of `src/app/api/search/game/route.ts`. An empty trimmed query
returns `{ results: [] }` before the credential check and token fetch;
otherwise the token logic runs, the Apicalypse body is sent, and the
response is mapped/filtered like the anime route (error fallback
`"IGDB search failed"`). -/
def gameGET (qParam : Option String) (clientId clientSecret : Option String)
    (cache : Option CachedToken) (now : Int) (tf : TokenFetchResult)
    (up : GameUpstream) : GameCallResult :=
  let q := jsTrim (qParam.getD "")
  if q = "" then
    { outcome := .response (.results []), cacheAfter := cache
    , tokenFetched := false, igdbBody := none }
  else
    let t := getTwitchAppToken clientId clientSecret cache now tf
    match t.result with
    | .thrown m =>
      { outcome := .thrown m, cacheAfter := t.cacheAfter
      , tokenFetched := t.fetched, igdbBody := none }
    | .ok _ =>
      if up.ok = false then
        { outcome := .response (.error 500 (if up.text = "" then "IGDB search failed" else up.text))
        , cacheAfter := t.cacheAfter, tokenFetched := t.fetched
        , igdbBody := some (gameBody q) }
      else
        { outcome := .response (.results (gameResults up.games))
        , cacheAfter := t.cacheAfter, tokenFetched := t.fetched
        , igdbBody := some (gameBody q) }

/-- `CellData` of `src/app/page.tsx`: a label and an optional image. -/
structure CellData where
  label : String
  imageUrl : Option String := none
deriving DecidableEq

/-- A `Partial<CellData>` patch as passed to `updateSelected`: a present
key overrides the cell's field (a key may be present with value
`undefined`, which is how `clearImage` erases the image). -/
structure CellPatch where
  label : Option String := none
  imageUrl : Option (Option String) := none
deriving DecidableEq

/-- `{ ...cell, ...patch }`: keys present in the patch win. -/
def applyPatch (c : CellData) (p : CellPatch) : CellData :=
  { label := p.label.getD c.label
  , imageUrl := p.imageUrl.getD c.imageUrl }

/-- The slice of the `Home` component state the modelled operations
touch: the cell array, the nullable selected index, and the search-modal
visibility flag. -/
structure EditorState where
  cells : List CellData
  selectedIndex : Option Nat
  isSearchOpen : Bool
deriving DecidableEq

/-- `const rows = 3`. -/
def rows : Nat := 3

/-- `const cols = 6`. -/
def cols : Nat := 6

/-- The `defaultLabels` array of `src/app/page.tsx`. -/
def defaultLabels : List String :=
  [ "Favorite Game of all Time"
  , "Favorite Series"
  , "Best Soundtrack"
  , "Favorite Protagonist"
  , "Favorite Villain"
  , "Best Story"
  , "Have not played but want to"
  , "You Love Everyone Hates"
  , "You Hate Everyone Loves"
  , "Best Art Style"
  , "Favorite Ending"
  , "Favorite Boss Fight"
  , "Childhood Game"
  , "Relaxing Game"
  , "Stressful Game"
  , "Game you always come back to"
  , "Guilty Pleasure"
  , "Tons of Hours Played" ]

/-- The initial editor state: `defaultLabels.map((label) => ({ label }))`,
no selection, modal closed. -/
def initialState : EditorState :=
  { cells := defaultLabels.map (fun l => { label := l })
  , selectedIndex := none
  , isSearchOpen := false }

/-- `updateSelected(patch)`: no-op without a selection, else replace the
selected cell by `{ ...copy[selectedIndex], ...patch }` in a copy of the
array. -/
def updateSelected (st : EditorState) (p : CellPatch) : EditorState :=
  match st.selectedIndex with
  | none => st
  | some i => { st with cells := st.cells.set i (applyPatch (st.cells.getD i { label := "" }) p) }

/-- The grid button's `onClick={() => setSelectedIndex(i)}`. -/
def selectCell (st : EditorState) (i : Nat) : EditorState :=
  { st with selectedIndex := some i }

/-- `clearImage()`: `updateSelected({ imageUrl: undefined })`. -/
def clearImage (st : EditorState) : EditorState :=
  updateSelected st { imageUrl := some none }

/-- JavaScript `s.startsWith(p)`: the characters of `p` lead `s`. -/
def jsStartsWith (s p : String) : Bool :=
  p.data.isPrefixOf s.data

/-- How the `FileReader` of `handleUploadImage` resolves: `onload` with
the data URL, or `onerror`. -/
inductive ReadOutcome where
  | success (dataUrl : String)
  | failure
deriving DecidableEq

/-- `handleUploadImage(file)`: no-op without a selection; a MIME type not
starting with `"image/"` is rejected with an alert and no state change;
otherwise the read outcome either assigns the data URL to the selected
cell or alerts. The second component is the alert text, if any. -/
def handleUploadImage (st : EditorState) (fileType : String) (read : ReadOutcome) :
    EditorState × Option String :=
  match st.selectedIndex with
  | none => (st, none)
  | some _ =>
    if jsStartsWith fileType "image/" = false then
      (st, some "Please upload an image file (png/jpg/webp/etc).")
    else
      match read with
      | .success d => (updateSelected st { imageUrl := some (some d) }, none)
      | .failure => (st, some "Failed to read the image file.")

/-- `pickResult(r)`: no-op without a selection, else assign the result's
`imageUrl` to the selected cell and close the modal. -/
def pickResult (st : EditorState) (r : SearchResult) : EditorState :=
  match st.selectedIndex with
  | none => st
  | some _ => { updateSelected st { imageUrl := some (some r.imageUrl) } with isSearchOpen := false }

/-- Editor states reachable from the initial render through the modelled
operations. `select` carries `i < rows * cols` because the grid renders
exactly `rows * cols` buttons, the button at position `i` being the only
caller of `setSelectedIndex(i)`. -/
inductive Reachable : EditorState → Prop where
  | init : Reachable initialState
  | select {st : EditorState} {i : Nat} :
      Reachable st → i < rows * cols → Reachable (selectCell st i)
  | patch {st : EditorState} {p : CellPatch} :
      Reachable st → Reachable (updateSelected st p)
  | clear {st : EditorState} :
      Reachable st → Reachable (clearImage st)
  | upload {st : EditorState} {ft : String} {rd : ReadOutcome} :
      Reachable st → Reachable (handleUploadImage st ft rd).1
  | pick {st : EditorState} {r : SearchResult} :
      Reachable st → Reachable (pickResult st r)
  | openModal {st : EditorState} :
      Reachable st → Reachable { st with isSearchOpen := true }
  | closeModal {st : EditorState} :
      Reachable st → Reachable { st with isSearchOpen := false }

/-- A possibly-missing string field counted as "present" only when it
holds a non-empty value — the reading under which JavaScript `||`
chains select "the first present field". -/
def presentNonEmpty (o : Option String) : Option String :=
  match o with
  | some s => if s = "" then none else some s
  | none => none

/-- Claim-side reading of the spec's title rule: the English title if
present, else Romaji, else Native, else "Untitled", where a title field
counts as present when it holds a non-empty string (the route's `||`
chain treats an empty string like a missing field). -/
def specTitlePreference (m : AniMedia) : String :=
  match presentNonEmpty (m.title.bind AniTitle.english) with
  | some s => s
  | none =>
    match presentNonEmpty (m.title.bind AniTitle.romaji) with
    | some s => s
    | none =>
      match presentNonEmpty (m.title.bind AniTitle.native) with
      | some s => s
      | none => "Untitled"

/-- Claim-side reading of "the largest available cover image":
`extraLarge` preferred over `large`; `none` when neither field holds a
non-empty URL. -/
def largestAvailableCover (m : AniMedia) : Option String :=
  match presentNonEmpty (m.coverImage.bind AniCover.extraLarge) with
  | some s => some s
  | none => presentNonEmpty (m.coverImage.bind AniCover.large)

/-- An upstream item lacking any cover image field: no `coverImage`
object, or one with neither `extraLarge` nor `large`. -/
def lacksCoverField (m : AniMedia) : Bool :=
  (m.coverImage.bind AniCover.extraLarge).isNone &&
    (m.coverImage.bind AniCover.large).isNone

example : animeGET none { ok := true } = { output := .results [], upstreamCalled := false } := by decide

example : animeGET (some "   ") { ok := true } = { output := .results [], upstreamCalled := false } := by decide

example : animeGET (some "naruto") { ok := false, text := "" } =
    { output := .error 500 "AniList search failed", upstreamCalled := true } := by decide

example :
    animeGET (some "naruto")
      { ok := true
      , json :=
          { data := some
              { Page := some
                  { media := some
                      [ { id := 1, title := some { english := some "E" },
                          coverImage := some { extraLarge := some "xl" } },
                        { id := 2, title := some { romaji := some "R" } } ] } } } } =
    { output := .results [{ id := "1", title := "E", year := none, imageUrl := "xl" }]
    , upstreamCalled := true } := by decide


example : getUTCFullYearOfMs 0 = 1970 := by decide

example : getUTCFullYearOfMs 1000212360000 = 2001 := by decide

example : getUTCFullYearOfMs (-86400000) = 1969 := by decide

example : stripQuotes "zel\"da" = "zelda" := by decide

/-- The trimmed template-literal body equals the rendering of the
structured request, for every query. -/
theorem gameBody_renders (q : String) :
    gameBody q = renderApicalypse (builtGameRequest q) := by
  apply String.ext
  simp only [gameBody, renderApicalypse, builtGameRequest, String.data_append,
    List.append_assoc]
  congr 1

/-- Claim C3: an anime search request whose `q` parameter is absent,
empty, or whitespace-only returns `{ results: [] }` and makes no
upstream call. -/
theorem anime_empty_query_shortcircuit (qParam : Option String) (up : AnimeUpstream)
    (h : jsTrim (qParam.getD "") = "") :
    animeGET qParam up = { output := .results [], upstreamCalled := false } := by
  simp [animeGET, h]

theorem anime_empty_query_shortcircuit_witness :
    animeGET (some "   ") { ok := true } = { output := .results [], upstreamCalled := false } :=
  anime_empty_query_shortcircuit (some "   ") { ok := true } (by decide)

/-- Claim C7 (amended): for a non-empty anime query with a non-success
upstream, the endpoint returns status 500 whose body is the upstream's
raw error text when that text is non-empty, and the fallback message
"AniList search failed" when it is empty. -/
theorem anime_upstream_error_propagation (qParam : Option String) (up : AnimeUpstream)
    (hq : jsTrim (qParam.getD "") ≠ "") (hok : up.ok = false) :
    animeGET qParam up =
      { output := .error 500 (if up.text = "" then "AniList search failed" else up.text)
      , upstreamCalled := true } := by
  simp [animeGET, hq, hok]

theorem anime_upstream_error_propagation_witness :
    animeGET (some "naruto") { ok := false, text := "upstream exploded" } =
      { output := .error 500 "upstream exploded", upstreamCalled := true } := by
  have h := anime_upstream_error_propagation (some "naruto")
    { ok := false, text := "upstream exploded" } (by decide) rfl
  simpa using h

/-- Counterexample to claim C7 as stated: when the upstream's raw error
text is empty, the 500 body is the fallback "AniList search failed",
not the raw text. -/
theorem anime_upstream_error_propagation_cex :
    (animeGET (some "naruto") { ok := false, text := "" }).output
        = RouteOutput.error 500 "AniList search failed"
    ∧ ("AniList search failed" : String) ≠ "" :=
  ⟨by decide, by decide⟩

/-- Claim C10: a game search request whose `q` parameter is absent,
empty, or whitespace-only returns `{ results: [] }` before the
credential check and token fetch, for any environment. -/
theorem game_empty_query_shortcircuit (qParam : Option String)
    (cid cs : Option String) (cache : Option CachedToken) (now : Int)
    (tf : TokenFetchResult) (up : GameUpstream)
    (h : jsTrim (qParam.getD "") = "") :
    gameGET qParam cid cs cache now tf up =
      { outcome := .response (.results []), cacheAfter := cache
      , tokenFetched := false, igdbBody := none } := by
  simp [gameGET, h]

theorem game_empty_query_shortcircuit_witness :
    gameGET (some "  ") none none none 0 { ok := false } { ok := false } =
      { outcome := .response (.results []), cacheAfter := none
      , tokenFetched := false, igdbBody := none } :=
  game_empty_query_shortcircuit (some "  ") none none none 0
    { ok := false } { ok := false } (by decide)

/-- Claim C2: with configured credentials, a cached token whose expiry is
more than 60 seconds in the future is returned verbatim with no token
fetch; otherwise a token fetch is made, and on success the fresh token is
returned and cached with its expiry `now + expires_in * 1000`. -/
theorem token_cache_reuse (cid cs : Option String)
    (hcid : cid.getD "" ≠ "") (hcs : cs.getD "" ≠ "")
    (cache : Option CachedToken) (now : Int) (tf : TokenFetchResult) :
    (∀ c, cache = some c → c.expiresAt > now + 60000 →
      getTwitchAppToken cid cs cache now tf =
        { result := .ok c.token, cacheAfter := some c, fetched := false })
    ∧ ((∀ c, cache = some c → ¬ c.expiresAt > now + 60000) →
        (getTwitchAppToken cid cs cache now tf).fetched = true
        ∧ (tf.ok = true →
            getTwitchAppToken cid cs cache now tf =
              { result := .ok tf.accessToken
              , cacheAfter := some { token := tf.accessToken
                                   , expiresAt := now + tf.expiresIn * 1000 }
              , fetched := true })) := by
  constructor
  · intro c hc hexp
    subst hc
    simp only [getTwitchAppToken]
    rw [if_neg (by simp [hcid, hcs])]
    rw [if_pos (by omega)]
  · intro hstale
    have hfetch : getTwitchAppToken cid cs cache now tf = twitchTokenFetch cache now tf := by
      simp only [getTwitchAppToken]
      rw [if_neg (by simp [hcid, hcs])]
      cases cache with
      | none => rfl
      | some c =>
        have hc := hstale c rfl
        dsimp only
        rw [if_neg (by omega)]
    rw [hfetch]
    constructor
    · cases h : tf.ok <;> simp [twitchTokenFetch, h]
    · intro htf
      simp [twitchTokenFetch, htf]

theorem token_cache_reuse_witness :
    getTwitchAppToken (some "id") (some "sec")
        (some { token := "tok", expiresAt := 200000 }) 0 { ok := false } =
      { result := .ok "tok"
      , cacheAfter := some { token := "tok", expiresAt := 200000 }
      , fetched := false }
    ∧ getTwitchAppToken (some "id") (some "sec") none 0
        { ok := true, accessToken := "fresh", expiresIn := 3600 } =
      { result := .ok "fresh"
      , cacheAfter := some { token := "fresh", expiresAt := 0 + 3600 * 1000 }
      , fetched := true } := by
  constructor
  · exact (token_cache_reuse (some "id") (some "sec") (by decide) (by decide)
      (some { token := "tok", expiresAt := 200000 }) 0 { ok := false }).1
      { token := "tok", expiresAt := 200000 } rfl (by decide)
  · exact ((token_cache_reuse (some "id") (some "sec") (by decide) (by decide)
      none 0 { ok := true, accessToken := "fresh", expiresIn := 3600 }).2
      (fun c hc => Option.noConfusion hc)).2 rfl

/-- Claim C1 (amended): for a game search with a non-empty query that
reaches the IGDB call, the upstream request is the rendering of
`builtGameRequest`, which is limited to 24 results and excludes
version-variant entries; the built request carries no DLC exclusion
(see the counterexample). -/
theorem game_request_shape (qParam : Option String) (cid cs : Option String)
    (cache : Option CachedToken) (now : Int) (tf : TokenFetchResult)
    (up : GameUpstream) (tok : String)
    (hq : jsTrim (qParam.getD "") ≠ "")
    (htok : (getTwitchAppToken cid cs cache now tf).result = .ok tok) :
    (gameGET qParam cid cs cache now tf up).igdbBody
        = some (gameBody (jsTrim (qParam.getD "")))
    ∧ gameBody (jsTrim (qParam.getD ""))
        = renderApicalypse (builtGameRequest (jsTrim (qParam.getD "")))
    ∧ (builtGameRequest (jsTrim (qParam.getD ""))).limit = 24
    ∧ (∀ g : CatalogEntry, isVersionVariant g = true →
        passesWhere (builtGameRequest (jsTrim (qParam.getD ""))) g = false) := by
  refine ⟨?_, gameBody_renders _, rfl, ?_⟩
  · simp only [gameGET]
    rw [if_neg hq, htok]
    cases h : up.ok <;> simp [h]
  · intro g hg
    simp only [passesWhere, builtGameRequest, evalCond, List.all_cons, List.all_nil,
      Bool.and_true]
    simp only [isVersionVariant] at hg
    cases hv : g.versionParent with
    | none => rw [hv] at hg; simp at hg
    | some v => simp [hv]

theorem game_request_shape_witness :
    (gameGET (some "zelda") (some "id") (some "sec") none 0
        { ok := true, accessToken := "tok", expiresIn := 3600 } { ok := true }).igdbBody
      = some (gameBody (jsTrim "zelda"))
    ∧ (builtGameRequest (jsTrim "zelda")).limit = 24 := by
  have h := game_request_shape (some "zelda") (some "id") (some "sec") none 0
    { ok := true, accessToken := "tok", expiresIn := 3600 } { ok := true } "tok"
    (by decide) (by decide)
  exact ⟨h.1, h.2.2.1⟩

/-- Counterexample to claim C1 as stated: a DLC entry (one whose
`parent_game` is set but whose `version_parent` is not) satisfies the
`where` clause of the request the route builds, so the request does not
exclude DLC entries. -/
theorem game_request_dlc_cex :
    isDLC { versionParent := none, parentGame := some 7 } = true
    ∧ passesWhere (builtGameRequest "zelda")
        { versionParent := none, parentGame := some 7 } = true
    ∧ (gameGET (some "zelda") (some "id") (some "sec") none 0
          { ok := true, accessToken := "tok", expiresIn := 3600 } { ok := true }).igdbBody
        = some (renderApicalypse (builtGameRequest "zelda")) := by
  refine ⟨rfl, rfl, by decide⟩

/-- Claim C4: every mapped anime result takes the English title if
present, else Romaji, else Native, else "Untitled" (present meaning a
non-empty value, the route's truthiness test); its image URL is the
largest available cover (extraLarge preferred over large); and an
upstream item lacking any cover image field contributes no entry to the
results list. -/
theorem anime_result_mapping (m : AniMedia) :
    (mapMedia m).title = specTitlePreference m
    ∧ (∀ s, largestAvailableCover m = some s → (mapMedia m).imageUrl = s)
    ∧ (lacksCoverField m = true → ∀ media, mapMedia m ∉ animeResults media) := by
  refine ⟨?_, ?_, ?_⟩
  · cases he : m.title.bind AniTitle.english <;>
      cases hr : m.title.bind AniTitle.romaji <;>
        cases hn : m.title.bind AniTitle.native <;>
          simp [mapMedia, specTitlePreference, presentNonEmpty, jsOrStr, he, hr, hn] <;>
            split_ifs <;> simp_all
  · intro s hs
    cases hx : m.coverImage.bind AniCover.extraLarge <;>
      cases hl : m.coverImage.bind AniCover.large <;>
        simp [mapMedia, largestAvailableCover, presentNonEmpty, jsOrStr, hx, hl] at hs ⊢ <;>
          split_ifs at hs ⊢ <;> simp_all
  · intro hlack media hmem
    have himg : (mapMedia m).imageUrl = "" := by
      simp only [lacksCoverField, Bool.and_eq_true, Option.isNone_iff_eq_none] at hlack
      simp [mapMedia, jsOrStr, hlack.1, hlack.2]
    simp only [animeResults, List.mem_filter] at hmem
    rw [himg] at hmem
    simp at hmem

theorem anime_result_mapping_witness :
    (mapMedia { id := 1, title := some { english := some "E", romaji := some "R" } }).title
        = specTitlePreference { id := 1, title := some { english := some "E", romaji := some "R" } }
    ∧ mapMedia { id := 5 } ∉ animeResults [{ id := 5 }] :=
  ⟨(anime_result_mapping _).1, (anime_result_mapping _).2.2 (by decide) [{ id := 5 }]⟩

theorem updateSelected_cells_length (st : EditorState) (p : CellPatch) :
    (updateSelected st p).cells.length = st.cells.length := by
  cases h : st.selectedIndex <;> simp [updateSelected, h, List.length_set]

theorem updateSelected_selectedIndex (st : EditorState) (p : CellPatch) :
    (updateSelected st p).selectedIndex = st.selectedIndex := by
  cases h : st.selectedIndex <;> simp [updateSelected, h]

/-- Claim C5: patching the selected cell's label to `x` sets that cell's
label to `x` and leaves every other index unchanged. -/
theorem editor_label_patch_frame (st : EditorState) (i : Nat) (x : String)
    (hsel : st.selectedIndex = some i) (h : i < st.cells.length) :
    ((updateSelected st { label := some x }).cells[i]?).map CellData.label = some x
    ∧ ∀ j, j ≠ i → (updateSelected st { label := some x }).cells[j]? = st.cells[j]? := by
  constructor
  · simp only [updateSelected, hsel]
    rw [List.getElem?_set_self h]
    simp [applyPatch]
  · intro j hj
    simp only [updateSelected, hsel]
    rw [List.getElem?_set_ne (Ne.symm hj)]

theorem editor_label_patch_frame_witness :
    ((updateSelected (selectCell initialState 3) { label := some "X" }).cells[3]?).map
        CellData.label = some "X"
    ∧ (updateSelected (selectCell initialState 3) { label := some "X" }).cells[0]?
      = (selectCell initialState 3).cells[0]? := by
  have h := editor_label_patch_frame (selectCell initialState 3) 3 "X" rfl (by decide)
  exact ⟨h.1, h.2 0 (by decide)⟩

/-- Claim C6: picking a result while a cell is selected assigns the
result's `imageUrl` verbatim to that cell and closes the modal. -/
theorem modal_pick_assigns_image (st : EditorState) (i : Nat) (r : SearchResult)
    (hsel : st.selectedIndex = some i) (h : i < st.cells.length) :
    ((pickResult st r).cells[i]?).map CellData.imageUrl = some (some r.imageUrl)
    ∧ (pickResult st r).isSearchOpen = false := by
  constructor
  · simp only [pickResult, hsel, updateSelected]
    rw [List.getElem?_set_self h]
    simp [applyPatch]
  · simp [pickResult, hsel]

theorem modal_pick_assigns_image_witness :
    ((pickResult (selectCell initialState 0)
          { id := "9", title := "T", imageUrl := "http://x/y.jpg" }).cells[0]?).map
        CellData.imageUrl = some (some "http://x/y.jpg")
    ∧ (pickResult (selectCell initialState 0)
          { id := "9", title := "T", imageUrl := "http://x/y.jpg" }).isSearchOpen = false := by
  exact modal_pick_assigns_image (selectCell initialState 0) 0
    { id := "9", title := "T", imageUrl := "http://x/y.jpg" } rfl (by decide)

/-- Claim C8: while a cell is selected, uploading a file whose MIME type
does not start with "image/" leaves the state (hence the selected cell's
image) unchanged and surfaces the rejection alert. -/
theorem upload_rejects_non_image (st : EditorState) (i : Nat) (ft : String)
    (rd : ReadOutcome) (hsel : st.selectedIndex = some i)
    (hft : jsStartsWith ft "image/" = false) :
    handleUploadImage st ft rd =
      (st, some "Please upload an image file (png/jpg/webp/etc).") := by
  simp [handleUploadImage, hsel, hft]

theorem upload_rejects_non_image_witness :
    handleUploadImage (selectCell initialState 2) "text/plain" ReadOutcome.failure =
      (selectCell initialState 2, some "Please upload an image file (png/jpg/webp/etc).") :=
  upload_rejects_non_image (selectCell initialState 2) 2 "text/plain"
    ReadOutcome.failure rfl (by decide)

theorem handleUploadImage_preserves (st : EditorState) (ft : String) (rd : ReadOutcome) :
    (handleUploadImage st ft rd).1.cells.length = st.cells.length
    ∧ (handleUploadImage st ft rd).1.selectedIndex = st.selectedIndex := by
  cases h : st.selectedIndex with
  | none => simp [handleUploadImage, h]
  | some k =>
    simp only [handleUploadImage, h]
    cases hft : jsStartsWith ft "image/" <;> cases rd <;>
      simp [updateSelected_cells_length, updateSelected_selectedIndex, h]

theorem pickResult_preserves (st : EditorState) (r : SearchResult) :
    (pickResult st r).cells.length = st.cells.length
    ∧ (pickResult st r).selectedIndex = st.selectedIndex := by
  cases h : st.selectedIndex with
  | none => simp [pickResult, h]
  | some k =>
    simp only [pickResult, h]
    constructor
    · exact updateSelected_cells_length st _
    · rw [updateSelected_selectedIndex]
      exact h

/-- Claim C9: every reachable editor state has an 18-cell array and a
selected index that is either null or a valid index into it; all
modelled operations preserve this. -/
theorem editor_selection_invariant (st : EditorState) (h : Reachable st) :
    st.cells.length = 18 ∧ ∀ i, st.selectedIndex = some i → i < st.cells.length := by
  induction h with
  | init =>
    refine ⟨by decide, ?_⟩
    intro i hi
    simp [initialState] at hi
  | select hr hi ih =>
    refine ⟨ih.1, ?_⟩
    intro j hj
    simp only [selectCell] at hj
    cases hj
    simp only [selectCell]
    rw [ih.1]
    simpa [rows, cols] using hi
  | patch hr ih =>
    refine ⟨by rw [updateSelected_cells_length]; exact ih.1, ?_⟩
    intro i hi
    rw [updateSelected_cells_length]
    rw [updateSelected_selectedIndex] at hi
    exact ih.2 i hi
  | clear hr ih =>
    refine ⟨?_, ?_⟩
    · simp only [clearImage]
      rw [updateSelected_cells_length]; exact ih.1
    · intro i hi
      simp only [clearImage] at hi ⊢
      rw [updateSelected_cells_length]
      rw [updateSelected_selectedIndex] at hi
      exact ih.2 i hi
  | upload hr ih =>
    refine ⟨?_, ?_⟩
    · rw [(handleUploadImage_preserves _ _ _).1]; exact ih.1
    · intro i hi
      rw [(handleUploadImage_preserves _ _ _).1]
      rw [(handleUploadImage_preserves _ _ _).2] at hi
      exact ih.2 i hi
  | pick hr ih =>
    refine ⟨?_, ?_⟩
    · rw [(pickResult_preserves _ _).1]; exact ih.1
    · intro i hi
      rw [(pickResult_preserves _ _).1]
      rw [(pickResult_preserves _ _).2] at hi
      exact ih.2 i hi
  | openModal hr ih =>
    exact ih
  | closeModal hr ih =>
    exact ih

theorem editor_selection_invariant_witness :
    (selectCell initialState 3).cells.length = 18
    ∧ 3 < (selectCell initialState 3).cells.length := by
  have h := editor_selection_invariant (selectCell initialState 3)
    (Reachable.select Reachable.init (by decide))
  exact ⟨h.1, h.2 3 rfl⟩
